import Mathlib

/-!
Verification of the node-auth client library's manager layer.

The JavaScript sources are embedded shallowly: JavaScript values are the
inductive `JSVal`, property access and `typeof`/truthiness follow the
JavaScript semantics the code relies on, and every manager operation is a
Lean function returning either a thrown error or the list of rest-client
calls it issues. Components of the repository that live in external
packages (the retry wrapper, the generic rest client and its URL template
resolver) are modelled from the specification document, as marked on each
such definition.
-/

namespace NodeAuth

/-- Errors thrown synchronously by the manager layer: the library's
`ArgumentError` and the JavaScript runtime's `TypeError`. -/
inductive JSError where
  | argumentError (msg : String)
  | typeError (msg : String)
deriving DecidableEq

/-- Shallow model of the JavaScript values the manager layer inspects:
`undefined`, `null`, booleans, (integer) numbers, strings, plain objects
as association lists, and functions (only ever tested, never applied). -/
inductive JSVal where
  | undefined
  | jsnull
  | bool (b : Bool)
  | num (n : Int)
  | str (s : String)
  | obj (fields : List (String × JSVal))
  | fn

/-- JavaScript `typeof`; note `typeof null` is `"object"`. -/
def typeof : JSVal → String
  | .undefined => "undefined"
  | .jsnull => "object"
  | .bool _ => "boolean"
  | .num _ => "number"
  | .str _ => "string"
  | .obj _ => "object"
  | .fn => "function"

/-- JavaScript truthiness (NaN is not modelled; numbers are integers). -/
def truthy : JSVal → Bool
  | .undefined => false
  | .jsnull => false
  | .bool b => b
  | .num n => n != 0
  | .str s => s != ""
  | .obj _ => true
  | .fn => true

/-- First-match field lookup in an object literal; absent keys read as
`undefined`, as in JavaScript. -/
def lookupField : List (String × JSVal) → String → JSVal
  | [], _ => .undefined
  | (k, v) :: rest, key => if k = key then v else lookupField rest key

/-- JavaScript property access `v[key]`: throws `TypeError` on `null` and
`undefined`, reads object fields, and yields `undefined` on other
primitives (auto-boxing). -/
def getField : JSVal → String → Except JSError JSVal
  | .undefined, _ => .error (.typeError "Cannot read properties of undefined")
  | .jsnull, _ => .error (.typeError "Cannot read properties of null")
  | .obj fs, key => .ok (lookupField fs key)
  | _, _ => .ok .undefined

/-- Total field projection used in theorem statements: the value of
`v[key]` whenever the access does not throw. -/
def fieldOf (v : JSVal) (key : String) : JSVal :=
  match v with
  | .obj fs => lookupField fs key
  | _ => .undefined

/-- The test `cb && cb instanceof Function` used throughout the managers. -/
def isCallback (cb : JSVal) : Bool :=
  truthy cb && (match cb with | .fn => true | _ => false)

def isNull : JSVal → Bool
  | .jsnull => true
  | _ => false

def isUndefined : JSVal → Bool
  | .undefined => true
  | _ => false

/-- A truthy string value: present, of string type, and non-empty (the
combination the `!params.x || typeof params.x !== 'string'` checks accept). -/
def truthyString (v : JSVal) : Bool :=
  truthy v && (typeof v == "string")

/-- The rest-client verbs the managers invoke (`update` is the legacy
rest-facade method name used by the old `Users` wrapper). -/
inductive Verb where
  | create
  | get
  | getAll
  | patch
  | update
  | del
deriving DecidableEq

/-- One call issued on a wrapped rest client: which per-manager client
field received it, the verb method invoked, and the forwarded arguments. -/
structure RestCall where
  client : String
  verb : Verb
  args : List JSVal

/-! ## Retry wrapper (spec-modelled)

`RetryRestClient` is constructed by `UsersManager` but its implementation
is not part of the sources at hand; the state machine below is modelled
from the specification. -/

/-- Terminal states of one retried call: `Success`, `ExhaustedFailure`
(surfacing an `ExhaustedRetryError` that wraps the last underlying error),
and `FatalFailure` (a non-retryable error surfaced immediately). -/
inductive RetryOutcome (E V : Type) where
  | success (v : V)
  | exhausted (last : E)
  | fatal (e : E)
deriving DecidableEq

/-- Modelled from the spec: the Retry Wrapper's per-call state machine
(`RetryRestClient`, whose source is not among the files at hand). From
state `Attempting` the underlying transport is issued once per attempt;
a retryable error with budget remaining re-enters `Attempting`, a
retryable error with the budget exhausted ends in `ExhaustedFailure`
wrapping that last error, and a non-retryable error ends in
`FatalFailure`. Returns the outcome together with the number of attempts
actually issued. Recursion is on the remaining retry budget. -/
def retryAux {E V : Type} (retryable : E → Bool) (transport : Nat → Except E V)
    (attempt : Nat) : Nat → RetryOutcome E V × Nat
  | 0 =>
    match transport attempt with
    | .ok v => (.success v, 1)
    | .error e =>
      if retryable e then (.exhausted e, 1) else (.fatal e, 1)
  | r + 1 =>
    match transport attempt with
    | .ok v => (.success v, 1)
    | .error e =>
      if retryable e then
        let rest := retryAux retryable transport (attempt + 1) r
        (rest.1, rest.2 + 1)
      else (.fatal e, 1)

/-- Modelled from the spec: one externally issued call through the retry
wrapper starts in state `Attempting` with attempt count 0 and a budget of
`maxRetries` further attempts. -/
def retryCall {E V : Type} (maxRetries : Nat) (retryable : E → Bool)
    (transport : Nat → Except E V) : RetryOutcome E V × Nat :=
  retryAux retryable transport 0 maxRetries

lemma retryAux_always_err {E V : Type} (retryable : E → Bool)
    (transport : Nat → Except E V) (errs : Nat → E)
    (h : ∀ n, transport n = .error (errs n) ∧ retryable (errs n) = true) :
    ∀ (k a : Nat), retryAux (V := V) retryable transport a k =
      (.exhausted (errs (a + k)), k + 1) := by
  intro k
  induction k with
  | zero =>
    intro a
    simp [retryAux, (h a).1, (h a).2]
  | succ n ih =>
    intro a
    simp only [retryAux, (h a).1, (h a).2, if_true]
    rw [ih (a + 1)]
    simp [Nat.add_comm, Nat.add_assoc, Nat.add_left_comm]

lemma retryAux_attempts_le {E V : Type} (retryable : E → Bool)
    (transport : Nat → Except E V) :
    ∀ (k a : Nat), (retryAux (V := V) retryable transport a k).2 ≤ k + 1 := by
  intro k
  induction k with
  | zero =>
    intro a
    rw [retryAux]
    cases transport a with
    | ok v => simp
    | error e => by_cases hr : retryable e <;> simp [hr]
  | succ n ih =>
    intro a
    rw [retryAux]
    cases transport a with
    | ok v => simp
    | error e =>
      by_cases hr : retryable e <;> simp [hr]
      exact ih (a + 1)

/-! ## UsersManager (src/management/UsersManager.js)

Each operation is translated from the JavaScript body: it either throws a
`JSError` or returns the list of calls issued on the per-manager rest
clients (field name, verb, forwarded arguments). -/

/-- The instance state `UsersManager` establishes at construction: the
headers value read from the options and, in source order, the rest
clients it creates (field name paired with the URL template each
`Auth0RestClient` is given). -/
structure UsersManagerInstance where
  headers : JSVal
  clients : List (String × String)

/-- The rest clients built by the `UsersManager` constructor, in source
order, from a validated base URL `b`. -/
def usersManagerClients (b : String) : List (String × String) :=
  [("users", b ++ "/users/:id"),
   ("multifactor", b ++ "/users/:id/multifactor/:provider"),
   ("identities", b ++ "/users/:id/identities/:provider/:user_id"),
   ("userLogs", b ++ "/users/:id/logs"),
   ("enrollments", b ++ "/users/:id/enrollments"),
   ("usersByEmail", b ++ "/users-by-email"),
   ("recoveryCodeRegenerations", b ++ "/users/:id/recovery-code-regeneration"),
   ("invalidateRememberBrowsers",
      b ++ "/users/:id/multifactor/actions/invalidate-remember-browser"),
   ("roles", b ++ "/users/:id/roles"),
   ("permissions", b ++ "/users/:id/permissions"),
   ("organizations", b ++ "/users/:id/organizations")]

/-- `UsersManager(options)`: validates `options` and `options.baseUrl`
exactly as the constructor does, then builds the instance. -/
def usersManagerConstruct (options : JSVal) : Except JSError UsersManagerInstance :=
  if isNull options || (typeof options != "object") then
    .error (.argumentError "Must provide manager options")
  else
    match getField options "baseUrl" with
    | .error e => .error e
    | .ok (.str s) =>
      if s.length == 0 then
        .error (.argumentError "The provided base URL is invalid")
      else
        .ok { headers := fieldOf options "headers", clients := usersManagerClients s }
    | .ok b =>
      if isNull b || isUndefined b then
        .error (.argumentError "Must provide a base URL for the API")
      else
        .error (.argumentError "The provided base URL is invalid")

/-- `UsersManager.prototype.create(data, cb)`. -/
def usersManagerCreate (data cb : JSVal) : Except JSError (List RestCall) :=
  if isCallback cb then .ok [⟨"users", .create, [data, cb]⟩]
  else .ok [⟨"users", .create, [data]⟩]

/-- `UsersManager.prototype.getAll(...)`: forwards `arguments` to
`this.users.getAll`. -/
def usersManagerGetAll (args : List JSVal) : Except JSError (List RestCall) :=
  .ok [⟨"users", .getAll, args⟩]

/-- `UsersManager.prototype.get(...)`: forwards `arguments` to
`this.users.get`. -/
def usersManagerGet (args : List JSVal) : Except JSError (List RestCall) :=
  .ok [⟨"users", .get, args⟩]

/-- `UsersManager.prototype.update(...)`: forwards `arguments` to
`this.users.patch`. -/
def usersManagerUpdate (args : List JSVal) : Except JSError (List RestCall) :=
  .ok [⟨"users", .patch, args⟩]

/-- `UsersManager.prototype.updateUserMetadata(params, metadata, cb)`:
wraps the metadata under a `user_metadata` key and patches. -/
def usersManagerUpdateUserMetadata (params metadata cb : JSVal) :
    Except JSError (List RestCall) :=
  let data := JSVal.obj [("user_metadata", metadata)]
  if isCallback cb then .ok [⟨"users", .patch, [params, data, cb]⟩]
  else .ok [⟨"users", .patch, [params, data]⟩]

/-- `UsersManager.prototype.updateAppMetadata(params, metadata, cb)`:
wraps the metadata under an `app_metadata` key and patches. -/
def usersManagerUpdateAppMetadata (params metadata cb : JSVal) :
    Except JSError (List RestCall) :=
  let data := JSVal.obj [("app_metadata", metadata)]
  if isCallback cb then .ok [⟨"users", .patch, [params, data, cb]⟩]
  else .ok [⟨"users", .patch, [params, data]⟩]

/-- `UsersManager.prototype.delete(params)`: throws unless
`typeof params === 'object'` and `typeof params.id === 'string'`
(so `params = null` reaches the `params.id` access and raises a
`TypeError`), then forwards to `this.users.delete`. -/
def usersManagerDelete (params : JSVal) : Except JSError (List RestCall) :=
  if typeof params != "object" then
    .error (.argumentError "You must provide an id for the delete method")
  else
    match getField params "id" with
    | .error e => .error e
    | .ok idv =>
      if typeof idv != "string" then
        .error (.argumentError "You must provide an id for the delete method")
      else
        .ok [⟨"users", .del, [params]⟩]

/-- `UsersManager.prototype.deleteAll(cb)`: requires a function callback
and forwards `arguments` (just the callback) to `this.users.delete` with
no id parameter at all. -/
def usersManagerDeleteAll (cb : JSVal) : Except JSError (List RestCall) :=
  if typeof cb != "function" then
    .error (.argumentError "The deleteAll method only accepts a callback as argument")
  else
    .ok [⟨"users", .del, [cb]⟩]

/-- `UsersManager.prototype.deleteMultifactorProvider(params, cb)`:
defaults falsy `params` to `{}`, requires truthy string `id` and
`provider`, then deletes on `this.multifactor`. -/
def usersManagerDeleteMultifactorProvider (params cb : JSVal) :
    Except JSError (List RestCall) :=
  let params := if truthy params then params else .obj []
  match getField params "id" with
  | .error e => .error e
  | .ok idv =>
    if !truthy idv || (typeof idv != "string") then
      .error (.argumentError "The id parameter must be a valid user id")
    else
      match getField params "provider" with
      | .error e => .error e
      | .ok prov =>
        if !truthy prov || (typeof prov != "string") then
          .error (.argumentError "Must specify a provider")
        else if isCallback cb then .ok [⟨"multifactor", .del, [params, cb]⟩]
        else .ok [⟨"multifactor", .del, [params]⟩]

/-- `UsersManager.prototype.unlink(params, cb)`: defaults falsy `params`
to `{}`, requires truthy string `id`, `user_id` and `provider`, then
deletes on `this.identities`. -/
def usersManagerUnlink (params cb : JSVal) : Except JSError (List RestCall) :=
  let params := if truthy params then params else .obj []
  match getField params "id" with
  | .error e => .error e
  | .ok idv =>
    if !truthy idv || (typeof idv != "string") then
      .error (.argumentError "id field is required")
    else
      match getField params "user_id" with
      | .error e => .error e
      | .ok uidv =>
        if !truthy uidv || (typeof uidv != "string") then
          .error (.argumentError "user_id field is required")
        else
          match getField params "provider" with
          | .error e => .error e
          | .ok prov =>
            if !truthy prov || (typeof prov != "string") then
              .error (.argumentError "provider field is required")
            else if isCallback cb then .ok [⟨"identities", .del, [params, cb]⟩]
            else .ok [⟨"identities", .del, [params]⟩]

/-- `UsersManager.prototype.regenerateRecoveryCode(params, cb)`: checks
only `!params || !params.id` (presence, not type) and then posts an empty
object body on `this.recoveryCodeRegenerations`. -/
def usersManagerRegenerateRecoveryCode (params cb : JSVal) :
    Except JSError (List RestCall) :=
  if !truthy params then
    .error (.argumentError "The userId cannot be null or undefined")
  else
    match getField params "id" with
    | .error e => .error e
    | .ok idv =>
      if !truthy idv then
        .error (.argumentError "The userId cannot be null or undefined")
      else if isCallback cb then
        .ok [⟨"recoveryCodeRegenerations", .create, [params, .obj [], cb]⟩]
      else
        .ok [⟨"recoveryCodeRegenerations", .create, [params, .obj []]⟩]

/-- `UsersManager.prototype.invalidateRememberBrowser(params, cb)`: checks
only `!params || !params.id` (presence, not type) and then posts an empty
object body on `this.invalidateRememberBrowsers`. -/
def usersManagerInvalidateRememberBrowser (params cb : JSVal) :
    Except JSError (List RestCall) :=
  if !truthy params then
    .error (.argumentError "The userId cannot be null or undefined")
  else
    match getField params "id" with
    | .error e => .error e
    | .ok idv =>
      if !truthy idv then
        .error (.argumentError "The userId cannot be null or undefined")
      else if isCallback cb then
        .ok [⟨"invalidateRememberBrowsers", .create, [params, .obj [], cb]⟩]
      else
        .ok [⟨"invalidateRememberBrowsers", .create, [params, .obj []]⟩]

/-- `UsersManager.prototype.removeRoles(params, data, cb)`: note the null
checks read `params.id` (not the defaulted `query`), then deletes on
`this.roles`. -/
def usersManagerRemoveRoles (params data cb : JSVal) :
    Except JSError (List RestCall) :=
  let query := if truthy params then params else .obj []
  let data := if truthy data then data else .obj []
  match getField params "id" with
  | .error e => .error e
  | .ok idv =>
    if !truthy idv then
      .error (.argumentError "The user_id cannot be null or undefined")
    else if typeof idv != "string" then
      .error (.argumentError "The user_id has to be a string")
    else if isCallback cb then .ok [⟨"roles", .del, [query, data, cb]⟩]
    else .ok [⟨"roles", .del, [query, data]⟩]

/-- `UsersManager.prototype.removePermissions(params, data, cb)`: same
shape as `removeRoles`, deleting on `this.permissions`. -/
def usersManagerRemovePermissions (params data cb : JSVal) :
    Except JSError (List RestCall) :=
  let query := if truthy params then params else .obj []
  let data := if truthy data then data else .obj []
  match getField params "id" with
  | .error e => .error e
  | .ok idv =>
    if !truthy idv then
      .error (.argumentError "The user_id cannot be null or undefined")
    else if typeof idv != "string" then
      .error (.argumentError "The user_id has to be a string")
    else if isCallback cb then .ok [⟨"permissions", .del, [query, data, cb]⟩]
    else .ok [⟨"permissions", .del, [query, data]⟩]

/-! ## ConnectionsManager

The constructor assigns its rest-client options to `apiOptions` without a
`var`/`let` declaration, which in JavaScript writes a process-global
binding. Construction is therefore modelled as a state transformer on the
global environment. -/

/-- The process-global bindings written by manager constructors: the
implicitly-global `apiOptions` of the `ConnectionsManager` constructor. -/
structure GlobalEnv where
  apiOptions : Option JSVal

/-- A constructed `ConnectionsManager`: the URL template handed to its
`RestClient` (note the trailing space in the source literal) and the
options object the `RestClient` captured. -/
structure ConnectionsManagerInstance where
  resourceTemplate : String
  resourceOptions : JSVal

/-- The rest-client options object the `ConnectionsManager` constructor
builds from its options' `headers` field. -/
def connectionsApiOptions (headers : JSVal) : JSVal :=
  .obj [("headers", headers), ("query", .obj [("repeatParams", .bool false)])]

/-- `ConnectionsManager(options)`: validates like `UsersManager`, then
overwrites the global `apiOptions` binding and builds the resource from
the template `options.baseUrl + '/connections/:id '` (trailing space as
in the source). The incoming global environment is never read. -/
def connectionsManagerConstruct (_g : GlobalEnv) (options : JSVal) :
    Except JSError (GlobalEnv × ConnectionsManagerInstance) :=
  if isNull options || (typeof options != "object") then
    .error (.argumentError "Must provide client options")
  else
    match getField options "baseUrl" with
    | .error e => .error e
    | .ok (.str s) =>
      if s.length == 0 then
        .error (.argumentError "The provided base URL is invalid")
      else
        let apiOpts := connectionsApiOptions (fieldOf options "headers")
        .ok ({ apiOptions := some apiOpts },
             { resourceTemplate := s ++ "/connections/:id ",
               resourceOptions := apiOpts })
    | .ok b =>
      if isNull b || isUndefined b then
        .error (.argumentError "Must provide a base URL for the API")
      else
        .error (.argumentError "The provided base URL is invalid")

/-- The `utils.wrapPropertyMethod` wiring of `ConnectionsManager`: which
rest-client method each manager method forwards to (`update` is wired to
`resource.patch`). -/
def connectionsManagerWiring : String → Option Verb :=
  fun m =>
    match m with
    | "create" => some .create
    | "getAll" => some .getAll
    | "get" => some .get
    | "update" => some .patch
    | "delete" => some .del
    | _ => none

/-! ## Legacy `Users` wrapper (lib/Users.js) -/

/-- `Users.prototype.update(...)` of the legacy wrapper: forwards
`arguments` to `this.resource.update`. -/
def usersLegacyUpdate (args : List JSVal) : List RestCall :=
  [⟨"resource", .update, args⟩]

/-! ## Generic rest client (spec-modelled)

The rest-facade client the managers delegate to is an external package
whose source is not among the files at hand; its verb-to-HTTP mapping,
its `getAll`, and its URL template resolver are modelled from the
specification. -/

/-- Modelled from the spec: the HTTP method the generic resource client
issues for each verb method (rest-facade is not among the sources at
hand): POST for create, GET for get/getAll, PATCH for update/patch,
DELETE for delete. -/
def httpMethodOf : Verb → String
  | .create => "POST"
  | .get => "GET"
  | .getAll => "GET"
  | .patch => "PATCH"
  | .update => "PATCH"
  | .del => "DELETE"

/-- Modelled from the spec: the generic resource client's `getAll` issues
exactly one request, built from the instance configuration and the
forwarded arguments, against a remote modelled as a fixed function from
requests to responses; no instance state is read destructively or
written. -/
def resourceGetAll (remote : RestCall → JSVal) (inst : UsersManagerInstance)
    (args : List JSVal) : JSVal × UsersManagerInstance :=
  (remote ⟨"users", .getAll, args⟩, inst)

/-! ## URL template resolver (spec-modelled) -/

/-- Characters allowed in a `:name` placeholder. -/
def isNameChar (c : Char) : Bool := c.isAlphanum || c == '_'

def lookupParam : List (String × String) → String → Option String
  | [], _ => none
  | (k, v) :: rest, key => if k == key then some v else lookupParam rest key

def splitSegsAux : List Char → List Char → List String
  | [], acc => [String.mk acc.reverse]
  | c :: cs, acc =>
    if c == '/' then String.mk acc.reverse :: splitSegsAux cs []
    else splitSegsAux cs (c :: acc)

/-- Split a path template on `/` into segments. -/
def splitSegs (s : String) : List String := splitSegsAux s.toList []

/-- Modelled from the spec: resolving one segment of a template. A
segment beginning with `:` is a placeholder: if the named parameter is
supplied its value replaces the placeholder (any trailing literal
characters of the segment are kept), and if it is absent the whole path
segment is removed. Parameter values are assumed to need no URL escaping. -/
def resolveSegment (ps : List (String × String)) (seg : String) : Option String :=
  match seg.toList with
  | ':' :: rest =>
    let name := rest.takeWhile isNameChar
    let tail := rest.dropWhile isNameChar
    match lookupParam ps (String.mk name) with
    | some v => some (v ++ String.mk tail)
    | none => none
  | _ => some seg

def joinSegs : List String → String
  | [] => ""
  | [s] => s
  | s :: rest => s ++ "/" ++ joinSegs rest

/-- Modelled from the spec: the URL template resolver substitutes each
supplied `:name` placeholder and removes the path segment of each absent
one. -/
def resolvePath (template : String) (ps : List (String × String)) : String :=
  joinSegs (List.filterMap (resolveSegment ps) (splitSegs template))

/-- Whether a path's final character is a space. -/
def endsWithSpace (s : String) : Bool := s.toList.getLast? == some ' '

/-- C1: with `maxRetries = N` and a transport that returns a retryable
error on every attempt, the retry wrapper makes exactly N+1 sequential
attempts and terminates in `ExhaustedFailure` wrapping the error of the
last (index-N) attempt; moreover, for every transport whatsoever the total
number of attempts never exceeds `maxRetries + 1`. -/
theorem retry_budget_exhaustion {E V : Type} (N : Nat) (retryable : E → Bool)
    (transport : Nat → Except E V) (errs : Nat → E)
    (h : ∀ n, transport n = .error (errs n) ∧ retryable (errs n) = true) :
    retryCall (V := V) N retryable transport = (.exhausted (errs N), N + 1) ∧
    ∀ (retryable2 : E → Bool) (transport2 : Nat → Except E V),
      (retryCall (V := V) N retryable2 transport2).2 ≤ N + 1 := by
  constructor
  · have := retryAux_always_err retryable transport errs h N 0
    simpa [retryCall] using this
  · intro r2 t2
    exact retryAux_attempts_le r2 t2 N 0

/-- Witness for C1 at `N = 2` with a transport failing with a constant
retryable error: three attempts, exhausted outcome. -/
theorem retry_budget_exhaustion_witness :
    retryCall (E := Nat) (V := Nat) 2 (fun _ => true) (fun _ => .error 7) =
      (.exhausted 7, 3) := by
  have := retry_budget_exhaustion (E := Nat) (V := Nat) 2 (fun _ => true)
    (fun _ => .error 7) (fun _ => 7) (fun _ => ⟨rfl, rfl⟩)
  exact this.1

lemma length_beq_zero_eq_false {s : String} (h : s ≠ "") : (s.length == 0) = false := by
  cases s with
  | mk data =>
    cases data with
    | nil => exact absurd rfl h
    | cons c cs => simp [String.length]

lemma typeof_obj (fs : List (String × JSVal)) : typeof (.obj fs) = "object" := rfl

lemma typeof_str (s : String) : typeof (.str s) = "string" := rfl

lemma typeof_undefined : typeof .undefined = "undefined" := rfl

lemma truthy_obj (fs : List (String × JSVal)) : truthy (.obj fs) = true := rfl

lemma truthy_undefined : truthy .undefined = false := rfl

lemma getField_obj (fs : List (String × JSVal)) (k : String) :
    getField (.obj fs) k = .ok (lookupField fs k) := rfl

lemma isCallback_undefined : isCallback .undefined = false := rfl

lemma isCallback_fn : isCallback .fn = true := rfl

/-- C2 counterexample: `delete(null)` reaches the `params.id` access
(since `typeof null === 'object'`) and throws a `TypeError`, not an
`ArgumentError`; and `unlink` with an `id` that is present and a string
but empty throws an `ArgumentError` instead of delegating, although such
params satisfy the claim's precondition. -/
theorem delete_null_and_unlink_empty_counterexample :
    usersManagerDelete JSVal.jsnull =
      .error (.typeError "Cannot read properties of null") ∧
    usersManagerUnlink
      (JSVal.obj [("id", .str ""), ("user_id", .str "u2"), ("provider", .str "auth0")])
      JSVal.undefined =
      .error (.argumentError "id field is required") := by
  exact ⟨rfl, rfl⟩

/-- C2 (amended): `delete` raises `ArgumentError` synchronously (zero
rest-client calls) when `typeof params` is not `object` or when `params`
is a non-null object whose `id` is not a string; for `params = null` the
`params.id` access raises a `TypeError` instead; for object params with a
string id it delegates exactly one delete. `unlink` (which first defaults
falsy params to `{}`) raises `ArgumentError` (zero calls) unless `id`,
`user_id` and `provider` are all non-empty strings — missing, empty, or
wrongly typed fields all count — and otherwise delegates exactly one
delete on the identities client. -/
theorem delete_unlink_validation_amended : ∀ (params cb : JSVal),
    ((typeof params != "object") = true →
      usersManagerDelete params =
        .error (.argumentError "You must provide an id for the delete method")) ∧
    (params = .jsnull →
      usersManagerDelete params =
        .error (.typeError "Cannot read properties of null")) ∧
    (∀ fs, params = .obj fs →
      ((typeof (lookupField fs "id") != "string") = true →
        usersManagerDelete params =
          .error (.argumentError "You must provide an id for the delete method")) ∧
      (∀ s, lookupField fs "id" = .str s →
        usersManagerDelete params = .ok [⟨"users", .del, [params]⟩])) ∧
    (truthy params = false →
      usersManagerUnlink params cb = .error (.argumentError "id field is required")) ∧
    (∀ fs, params = .obj fs →
      ((truthyString (lookupField fs "id") && truthyString (lookupField fs "user_id") &&
          truthyString (lookupField fs "provider")) = true →
        usersManagerUnlink params cb =
          .ok [⟨"identities", .del, if isCallback cb then [params, cb] else [params]⟩]) ∧
      ((truthyString (lookupField fs "id") && truthyString (lookupField fs "user_id") &&
          truthyString (lookupField fs "provider")) = false →
        ∃ m, usersManagerUnlink params cb = .error (.argumentError m))) := by
  intro params cb
  refine ⟨?_, ?_, ?_, ?_, ?_⟩
  · intro h
    simp [usersManagerDelete, h]
  · intro h
    subst h
    rfl
  · intro fs h
    subst h
    constructor
    · intro h2
      simp [usersManagerDelete, typeof_obj, getField_obj, h2]
    · intro s hs
      simp [usersManagerDelete, typeof_obj, getField_obj, hs, typeof_str]
  · intro h
    simp [usersManagerUnlink, h, getField_obj, lookupField, truthy_undefined]
  · intro fs h
    subst h
    constructor
    · intro h3
      rw [Bool.and_eq_true, Bool.and_eq_true] at h3
      obtain ⟨⟨hid, huid⟩, hprov⟩ := h3
      rw [truthyString, Bool.and_eq_true, beq_iff_eq] at hid huid hprov
      simp only [usersManagerUnlink, truthy_obj, getField_obj, hid.1, hid.2, huid.1,
        huid.2, hprov.1, hprov.2, if_true, bne_self_eq_false, Bool.not_true,
        Bool.or_self, Bool.false_or, if_false]
      by_cases hcb : isCallback cb = true <;> simp [hcb]
    · intro h3
      by_cases hid : truthyString (lookupField fs "id") = true
      · by_cases huid : truthyString (lookupField fs "user_id") = true
        · by_cases hprov : truthyString (lookupField fs "provider") = true
          · rw [hid, huid, hprov] at h3
            simp at h3
          · rw [truthyString, Bool.and_eq_true, beq_iff_eq] at hid huid
            refine ⟨"provider field is required", ?_⟩
            rw [truthyString, Bool.and_eq_true, beq_iff_eq, not_and_or] at hprov
            rcases hprov with hp | hp
            · rw [Bool.not_eq_true] at hp
              simp [usersManagerUnlink, truthy_obj, getField_obj, hid.1, hid.2,
                huid.1, huid.2, hp]
            · simp [usersManagerUnlink, truthy_obj, getField_obj, hid.1, hid.2,
                huid.1, huid.2, bne_iff_ne, hp]
        · rw [truthyString, Bool.and_eq_true, beq_iff_eq] at hid
          refine ⟨"user_id field is required", ?_⟩
          rw [truthyString, Bool.and_eq_true, beq_iff_eq, not_and_or] at huid
          rcases huid with hu | hu
          · rw [Bool.not_eq_true] at hu
            simp [usersManagerUnlink, truthy_obj, getField_obj, hid.1, hid.2, hu]
          · simp [usersManagerUnlink, truthy_obj, getField_obj, hid.1, hid.2,
              bne_iff_ne, hu]
      · refine ⟨"id field is required", ?_⟩
        rw [truthyString, Bool.and_eq_true, beq_iff_eq, not_and_or] at hid
        rcases hid with hi | hi
        · rw [Bool.not_eq_true] at hi
          simp [usersManagerUnlink, truthy_obj, getField_obj, hi]
        · simp [usersManagerUnlink, truthy_obj, getField_obj, bne_iff_ne, hi]

/-- Witness for C2 (amended) at params with all three identifying fields
present as non-empty strings: both operations delegate. -/
theorem delete_unlink_validation_amended_witness :
    usersManagerDelete (JSVal.obj [("id", .str "u1"), ("user_id", .str "u2"),
        ("provider", .str "auth0")]) =
      .ok [⟨"users", .del, [JSVal.obj [("id", .str "u1"), ("user_id", .str "u2"),
        ("provider", .str "auth0")]]⟩] ∧
    usersManagerUnlink (JSVal.obj [("id", .str "u1"), ("user_id", .str "u2"),
        ("provider", .str "auth0")]) JSVal.undefined =
      .ok [⟨"identities", .del, [JSVal.obj [("id", .str "u1"), ("user_id", .str "u2"),
        ("provider", .str "auth0")]]⟩] := by
  have h := delete_unlink_validation_amended
    (JSVal.obj [("id", .str "u1"), ("user_id", .str "u2"), ("provider", .str "auth0")])
    JSVal.undefined
  refine ⟨(h.2.2.1 _ rfl).2 "u1" rfl, ?_⟩
  have h2 := (h.2.2.2.2 _ rfl).1 rfl
  simpa [isCallback_undefined] using h2

/-- C3: both manager constructors throw `ArgumentError` when the options
value is null or not an object, when `options.baseUrl` is null or
undefined, and when it is a non-string or the empty string; for an object
options with a non-empty string `baseUrl`, construction succeeds. -/
theorem manager_constructor_validation : ∀ (options : JSVal) (g : GlobalEnv),
    ((isNull options || (typeof options != "object")) = true →
      usersManagerConstruct options =
        .error (.argumentError "Must provide manager options") ∧
      connectionsManagerConstruct g options =
        .error (.argumentError "Must provide client options")) ∧
    (∀ fs, options = .obj fs →
      ((isNull (lookupField fs "baseUrl") || isUndefined (lookupField fs "baseUrl")) = true →
        usersManagerConstruct options =
          .error (.argumentError "Must provide a base URL for the API") ∧
        connectionsManagerConstruct g options =
          .error (.argumentError "Must provide a base URL for the API")) ∧
      (((typeof (lookupField fs "baseUrl") != "string") = true ∧
          isNull (lookupField fs "baseUrl") = false ∧
          isUndefined (lookupField fs "baseUrl") = false) →
        usersManagerConstruct options =
          .error (.argumentError "The provided base URL is invalid") ∧
        connectionsManagerConstruct g options =
          .error (.argumentError "The provided base URL is invalid")) ∧
      (lookupField fs "baseUrl" = .str "" →
        usersManagerConstruct options =
          .error (.argumentError "The provided base URL is invalid") ∧
        connectionsManagerConstruct g options =
          .error (.argumentError "The provided base URL is invalid")) ∧
      (∀ s, lookupField fs "baseUrl" = .str s → s ≠ "" →
        usersManagerConstruct options =
          .ok { headers := lookupField fs "headers",
                clients := usersManagerClients s } ∧
        connectionsManagerConstruct g options =
          .ok ({ apiOptions := some (connectionsApiOptions (lookupField fs "headers")) },
               { resourceTemplate := s ++ "/connections/:id ",
                 resourceOptions := connectionsApiOptions (lookupField fs "headers") }))) := by
  intro options g
  constructor
  · intro h
    constructor
    · simp [usersManagerConstruct, h]
    · simp [connectionsManagerConstruct, h]
  · intro fs h
    subst h
    refine ⟨?_, ?_, ?_, ?_⟩
    · intro h2
      cases hb : lookupField fs "baseUrl" <;> rw [hb] at h2 <;>
        simp [isNull, isUndefined] at h2 <;>
        constructor <;>
        simp [usersManagerConstruct, connectionsManagerConstruct, typeof_obj,
          isNull, getField_obj, hb, isUndefined]
    · intro ⟨h2, h3, h4⟩
      cases hb : lookupField fs "baseUrl" <;> rw [hb] at h2 h3 h4 <;>
        simp [isNull, isUndefined, typeof, bne_iff_ne] at h2 h3 h4 <;>
        constructor <;>
        simp [usersManagerConstruct, connectionsManagerConstruct, typeof_obj,
          isNull, getField_obj, hb, isUndefined]
    · intro h2
      constructor <;>
        simp [usersManagerConstruct, connectionsManagerConstruct, typeof_obj,
          isNull, getField_obj, h2]
    · intro s hs hne
      constructor <;>
        simp [usersManagerConstruct, connectionsManagerConstruct, typeof_obj,
          isNull, getField_obj, hs, length_beq_zero_eq_false hne, fieldOf]

/-- Witness for C3: constructing with a non-empty string base URL
succeeds for both managers. -/
theorem manager_constructor_validation_witness :
    usersManagerConstruct (.obj [("baseUrl", .str "https://tenant.auth0.com")]) =
      .ok { headers := .undefined,
            clients := usersManagerClients "https://tenant.auth0.com" } ∧
    connectionsManagerConstruct ⟨none⟩ (.obj [("baseUrl", .str "https://tenant.auth0.com")]) =
      .ok ({ apiOptions := some (connectionsApiOptions .undefined) },
           { resourceTemplate := "https://tenant.auth0.com" ++ "/connections/:id ",
             resourceOptions := connectionsApiOptions .undefined }) := by
  have h := manager_constructor_validation
    (.obj [("baseUrl", .str "https://tenant.auth0.com")]) ⟨none⟩
  have h2 := (h.2 _ rfl).2.2.2 "https://tenant.auth0.com" rfl (by decide)
  simpa [lookupField] using h2

/-- C4: `updateUserMetadata` issues exactly one patch on the users client
with the params forwarded unchanged and the body the single-key envelope
`{user_metadata: metadata}`; `updateAppMetadata` does the same with
`{app_metadata: metadata}`. The metadata value sits unmodified inside the
envelope. -/
theorem metadata_envelope_patch : ∀ (params metadata cb : JSVal),
    usersManagerUpdateUserMetadata params metadata cb =
      .ok [⟨"users", .patch,
        [params, .obj [("user_metadata", metadata)]] ++
          (if isCallback cb then [cb] else [])⟩] ∧
    usersManagerUpdateAppMetadata params metadata cb =
      .ok [⟨"users", .patch,
        [params, .obj [("app_metadata", metadata)]] ++
          (if isCallback cb then [cb] else [])⟩] := by
  intro params metadata cb
  by_cases hcb : isCallback cb = true <;>
    simp [usersManagerUpdateUserMetadata, usersManagerUpdateAppMetadata, hcb]

/-- C5: every update path is carried out as HTTP PATCH —
`UsersManager.update` forwards its arguments to the users client's
`patch` method, `ConnectionsManager`'s `update` is wired to
`resource.patch`, and the legacy `Users.update` forwards to
`resource.update` (PATCH per the resource-client contract) — while
`create` maps to POST, `get`/`getAll` to GET and `delete` to DELETE, each
manager invocation issuing exactly one rest-client call. -/
theorem update_maps_to_patch : ∀ (args : List JSVal) (data cb : JSVal),
    usersManagerUpdate args = .ok [⟨"users", .patch, args⟩] ∧
    httpMethodOf .patch = "PATCH" ∧
    connectionsManagerWiring "update" = some .patch ∧
    usersLegacyUpdate args = [⟨"resource", .update, args⟩] ∧
    httpMethodOf .update = "PATCH" ∧
    (∃ c, usersManagerCreate data cb = .ok [c] ∧ c.verb = .create) ∧
    httpMethodOf .create = "POST" ∧
    usersManagerGet args = .ok [⟨"users", .get, args⟩] ∧
    usersManagerGetAll args = .ok [⟨"users", .getAll, args⟩] ∧
    httpMethodOf .get = "GET" ∧
    httpMethodOf .getAll = "GET" ∧
    httpMethodOf .del = "DELETE" ∧
    connectionsManagerWiring "create" = some .create ∧
    connectionsManagerWiring "get" = some .get ∧
    connectionsManagerWiring "getAll" = some .getAll ∧
    connectionsManagerWiring "delete" = some .del := by
  intro args data cb
  refine ⟨rfl, rfl, rfl, rfl, rfl, ?_, rfl, rfl, rfl, rfl, rfl, rfl, rfl, rfl, rfl, rfl⟩
  by_cases hcb : isCallback cb = true
  · exact ⟨⟨"users", .create, [data, cb]⟩, by simp [usersManagerCreate, hcb], rfl⟩
  · exact ⟨⟨"users", .create, [data]⟩, by simp [usersManagerCreate, hcb], rfl⟩

/-- C6 counterexample: the `ConnectionsManager` constructor, run in a
global environment where the implicitly-global `apiOptions` binding is
unset, leaves it set — the constructor writes process-global state shared
between instances. -/
theorem connections_global_write_counterexample :
    (connectionsManagerConstruct { apiOptions := none }
        (.obj [("baseUrl", .str "https://tenant.auth0.com")])).map
      (fun r => r.1.apiOptions.isSome) = .ok true := by
  rfl

/-- C6 (amended): the `ConnectionsManager` constructor does write shared
state — it assigns its rest-client options to the process-global
`apiOptions` binding (the declaration keyword is missing) — but it never
reads that global: its result is independent of the incoming global
environment, each instance captures its own options object, and the
global ends up holding exactly the most recent instance's options. So
constructing a second manager never alters the configuration or behaviour
of a previously constructed one. -/
theorem connections_construction_isolation :
    ∀ (g1 g2 : GlobalEnv) (options : JSVal)
      (r : GlobalEnv × ConnectionsManagerInstance),
    connectionsManagerConstruct g1 options = connectionsManagerConstruct g2 options ∧
    (connectionsManagerConstruct g1 options = .ok r →
      r.1.apiOptions = some r.2.resourceOptions) := by
  intro g1 g2 options r
  constructor
  · rfl
  · intro h
    rw [connectionsManagerConstruct] at h
    split at h
    · cases h
    · split at h
      · cases h
      · split at h
        · cases h
        · cases h
          rfl
      · split at h
        · cases h
        · cases h

/-- Witness for C6 (amended): two constructions from different global
environments agree, and the concrete construction sets the global to the
instance's own options object. -/
theorem connections_construction_isolation_witness :
    connectionsManagerConstruct { apiOptions := none }
        (.obj [("baseUrl", .str "https://tenant.auth0.com")]) =
      connectionsManagerConstruct { apiOptions := some (.obj []) }
        (.obj [("baseUrl", .str "https://tenant.auth0.com")]) ∧
    ({ apiOptions := some (connectionsApiOptions .undefined) } : GlobalEnv).apiOptions =
      some (({ resourceTemplate := "https://tenant.auth0.com" ++ "/connections/:id ",
               resourceOptions := connectionsApiOptions .undefined } :
                ConnectionsManagerInstance).resourceOptions) := by
  have h := connections_construction_isolation { apiOptions := none }
    { apiOptions := some (.obj []) }
    (.obj [("baseUrl", .str "https://tenant.auth0.com")])
    ({ apiOptions := some (connectionsApiOptions .undefined) },
     { resourceTemplate := "https://tenant.auth0.com" ++ "/connections/:id ",
       resourceOptions := connectionsApiOptions .undefined })
  exact ⟨h.1, h.2 rfl⟩

/-- C7: `UsersManager.getAll` forwards its arguments as one `getAll`
call on the users client, and the resource client's `getAll` — a function
of the instance configuration, the parameters and the fixed remote state
— leaves the instance unchanged, so two successive invocations with
identical parameters yield the same entity sequence in the same order. -/
theorem getAll_deterministic :
    ∀ (remote : RestCall → JSVal) (inst : UsersManagerInstance) (args : List JSVal),
    usersManagerGetAll args = .ok [⟨"users", .getAll, args⟩] ∧
    (resourceGetAll remote inst args).2 = inst ∧
    (resourceGetAll remote (resourceGetAll remote inst args).2 args).1 =
      (resourceGetAll remote inst args).1 := by
  intro remote inst args
  exact ⟨rfl, rfl, rfl⟩

/-- C8: `deleteAll` throws `ArgumentError` whenever its argument is not a
function (including the no-argument call, where `cb` is `undefined`), and
with a function callback it issues a delete on the whole users collection
with no id validation at all — while every other delete path of the
manager (`delete`, `unlink`, `deleteMultifactorProvider`, `removeRoles`,
`removePermissions`) throws `ArgumentError` when the params carry no id. -/
theorem deleteAll_callback_only_id_bypass :
    ∀ (cb cb2 : JSVal) (fs : List (String × JSVal)),
    ((typeof cb != "function") = true →
      usersManagerDeleteAll cb =
        .error (.argumentError "The deleteAll method only accepts a callback as argument")) ∧
    (usersManagerDeleteAll .undefined =
      .error (.argumentError "The deleteAll method only accepts a callback as argument")) ∧
    (cb = .fn → usersManagerDeleteAll cb = .ok [⟨"users", .del, [cb]⟩]) ∧
    (lookupField fs "id" = .undefined →
      (∃ m, usersManagerDelete (.obj fs) = .error (.argumentError m)) ∧
      (∃ m, usersManagerUnlink (.obj fs) cb2 = .error (.argumentError m)) ∧
      (∃ m, usersManagerDeleteMultifactorProvider (.obj fs) cb2 =
        .error (.argumentError m)) ∧
      (∃ m, usersManagerRemoveRoles (.obj fs) (.obj []) cb2 =
        .error (.argumentError m)) ∧
      (∃ m, usersManagerRemovePermissions (.obj fs) (.obj []) cb2 =
        .error (.argumentError m))) := by
  intro cb cb2 fs
  refine ⟨?_, rfl, ?_, ?_⟩
  · intro h
    simp [usersManagerDeleteAll, h]
  · intro h
    subst h
    rfl
  · intro hid
    refine ⟨⟨"You must provide an id for the delete method", ?_⟩,
      ⟨"id field is required", ?_⟩,
      ⟨"The id parameter must be a valid user id", ?_⟩,
      ⟨"The user_id cannot be null or undefined", ?_⟩,
      ⟨"The user_id cannot be null or undefined", ?_⟩⟩
    · simp [usersManagerDelete, typeof_obj, getField_obj, hid, typeof_undefined]
    · simp [usersManagerUnlink, truthy_obj, getField_obj, hid, truthy_undefined]
    · simp [usersManagerDeleteMultifactorProvider, truthy_obj, getField_obj, hid,
        truthy_undefined]
    · simp [usersManagerRemoveRoles, truthy_obj, getField_obj, hid, truthy_undefined]
    · simp [usersManagerRemovePermissions, truthy_obj, getField_obj, hid,
        truthy_undefined]

/-- Witness for C8: `deleteAll` with a function delegates, with
`undefined` throws, and `delete` with id-less params throws. -/
theorem deleteAll_callback_only_id_bypass_witness :
    usersManagerDeleteAll .fn = .ok [⟨"users", .del, [JSVal.fn]⟩] ∧
    usersManagerDeleteAll .undefined =
      .error (.argumentError "The deleteAll method only accepts a callback as argument") ∧
    (∃ m, usersManagerDelete (.obj []) = .error (.argumentError m)) := by
  have h := deleteAll_callback_only_id_bypass .fn .undefined []
  exact ⟨h.2.2.1 rfl, h.2.1, (h.2.2.2 rfl).1⟩

lemma getField_of_truthy {v : JSVal} (h : truthy v = true) (k : String) :
    getField v k = .ok (fieldOf v k) := by
  cases v with
  | undefined => exact absurd h (by simp [truthy])
  | jsnull => exact absurd h (by simp [truthy])
  | bool b => rfl
  | num n => rfl
  | str s => rfl
  | obj fs => rfl
  | fn => rfl

/-- C9: `regenerateRecoveryCode` and `invalidateRememberBrowser` validate
`params.id` for presence only — they throw `ArgumentError` exactly when
`params` or `params.id` is falsy, and for any truthy id (of any type)
they issue one create with an empty object body — whereas `delete`,
`unlink` and `deleteMultifactorProvider` also reject a truthy id that is
not a string. -/
theorem presence_only_id_validation :
    ∀ (params cb : JSVal) (fs : List (String × JSVal)),
    (truthy params = false →
      usersManagerRegenerateRecoveryCode params cb =
        .error (.argumentError "The userId cannot be null or undefined") ∧
      usersManagerInvalidateRememberBrowser params cb =
        .error (.argumentError "The userId cannot be null or undefined")) ∧
    (truthy params = true → truthy (fieldOf params "id") = false →
      usersManagerRegenerateRecoveryCode params cb =
        .error (.argumentError "The userId cannot be null or undefined") ∧
      usersManagerInvalidateRememberBrowser params cb =
        .error (.argumentError "The userId cannot be null or undefined")) ∧
    (truthy params = true → truthy (fieldOf params "id") = true →
      usersManagerRegenerateRecoveryCode params cb =
        .ok [⟨"recoveryCodeRegenerations", .create,
          [params, .obj []] ++ (if isCallback cb then [cb] else [])⟩] ∧
      usersManagerInvalidateRememberBrowser params cb =
        .ok [⟨"invalidateRememberBrowsers", .create,
          [params, .obj []] ++ (if isCallback cb then [cb] else [])⟩]) ∧
    (truthy (lookupField fs "id") = true →
      (typeof (lookupField fs "id") != "string") = true →
      (∃ m, usersManagerDelete (.obj fs) = .error (.argumentError m)) ∧
      (∃ m, usersManagerUnlink (.obj fs) cb = .error (.argumentError m)) ∧
      (∃ m, usersManagerDeleteMultifactorProvider (.obj fs) cb =
        .error (.argumentError m))) := by
  intro params cb fs
  refine ⟨?_, ?_, ?_, ?_⟩
  · intro h
    constructor <;>
      simp [usersManagerRegenerateRecoveryCode, usersManagerInvalidateRememberBrowser, h]
  · intro h1 h2
    constructor <;>
      simp [usersManagerRegenerateRecoveryCode, usersManagerInvalidateRememberBrowser,
        h1, getField_of_truthy h1, h2]
  · intro h1 h2
    constructor <;>
      (simp only [usersManagerRegenerateRecoveryCode,
        usersManagerInvalidateRememberBrowser, h1, getField_of_truthy h1, h2,
        Bool.not_true, if_false, Bool.false_eq_true]
       by_cases hcb : isCallback cb = true <;> simp [hcb])
  · intro h1 h2
    refine ⟨⟨"You must provide an id for the delete method", ?_⟩,
      ⟨"id field is required", ?_⟩,
      ⟨"The id parameter must be a valid user id", ?_⟩⟩
    · simp [usersManagerDelete, typeof_obj, getField_obj, h2]
    · simp [usersManagerUnlink, truthy_obj, getField_obj, h1, h2]
    · simp [usersManagerDeleteMultifactorProvider, truthy_obj, getField_obj, h1, h2]

/-- Witness for C9 at a numeric id: the presence-only endpoints issue
their create, while `delete`, `unlink` and `deleteMultifactorProvider`
reject the same params. -/
theorem presence_only_id_validation_witness :
    usersManagerRegenerateRecoveryCode (.obj [("id", .num 5)]) .undefined =
      .ok [⟨"recoveryCodeRegenerations", .create, [.obj [("id", .num 5)], .obj []]⟩] ∧
    usersManagerInvalidateRememberBrowser (.obj [("id", .num 5)]) .undefined =
      .ok [⟨"invalidateRememberBrowsers", .create, [.obj [("id", .num 5)], .obj []]⟩] ∧
    (∃ m, usersManagerDelete (.obj [("id", .num 5)]) = .error (.argumentError m)) := by
  have h := presence_only_id_validation (.obj [("id", .num 5)]) .undefined [("id", .num 5)]
  have h3 := h.2.2.1 rfl (by decide)
  have h4 := h.2.2.2 (by decide) (by decide)
  exact ⟨by simpa [isCallback_undefined] using h3.1, by simpa [isCallback_undefined] using h3.2,
    h4.1⟩

lemma toList_append (s t : String) : (s ++ t).toList = s.toList ++ t.toList := by
  cases s
  cases t
  rfl

lemma endsWithSpace_append (s t : String) (h : endsWithSpace t = true) :
    endsWithSpace (s ++ t) = true := by
  rw [endsWithSpace, beq_iff_eq] at h ⊢
  rw [toList_append, List.getLast?_append, h]
  rfl

lemma splitSegsAux_slash : ∀ (l1 : List Char) (acc l2 : List Char),
    splitSegsAux (l1 ++ '/' :: l2) acc = splitSegsAux l1 acc ++ splitSegsAux l2 [] := by
  intro l1
  induction l1 with
  | nil =>
    intro acc l2
    simp [splitSegsAux]
  | cons c cs ih =>
    intro acc l2
    by_cases hc : c = '/'
    · subst hc
      simp [splitSegsAux, ih]
    · simp [splitSegsAux, hc, ih]

/-- Splitting the connections template of any base URL yields the base's
segments followed by the two literal segments of the template suffix. -/
lemma splitSegs_template (b : String) :
    splitSegs (b ++ "/connections/:id ") = splitSegs b ++ ["connections", ":id "] := by
  rw [splitSegs, toList_append,
    show "/connections/:id ".toList = '/' :: "connections/:id ".toList from rfl,
    splitSegsAux_slash]
  rfl

/-- Joining segments whose last element ends in a given character yields a
path ending in that character, whatever the preceding segments are. -/
lemma joinSegs_concat_getLast (w : String) (c : Char)
    (hw : w.toList.getLast? = some c) :
    ∀ l : List String, (joinSegs (l ++ [w])).toList.getLast? = some c := by
  intro l
  induction l with
  | nil => exact hw
  | cons x xs ih =>
    cases xs with
    | nil =>
      show ((x ++ "/") ++ w).toList.getLast? = some c
      rw [toList_append, List.getLast?_append, hw]
      rfl
    | cons y ys =>
      show ((x ++ "/") ++ joinSegs ((y :: ys) ++ [w])).toList.getLast? = some c
      rw [toList_append, List.getLast?_append, ih]
      rfl

lemma resolvePath_template_with_id (b v : String) :
    resolvePath (b ++ "/connections/:id ") [("id", v)] =
      joinSegs (List.filterMap (resolveSegment [("id", v)]) (splitSegs b) ++
        ["connections", v ++ " "]) := by
  rw [resolvePath, splitSegs_template, List.filterMap_append]
  rfl

lemma resolvePath_template_no_id (b : String) :
    resolvePath (b ++ "/connections/:id ") [] =
      joinSegs (List.filterMap (resolveSegment []) (splitSegs b) ++ ["connections"]) := by
  rw [resolvePath, splitSegs_template, List.filterMap_append]
  rfl

/-- C10 counterexample: the constructed connections template does end in
a space, but resolving it with no `id` parameter removes the placeholder
segment together with that trailing space, so the resulting collection
path does not end in a space. -/
theorem connections_template_counterexample :
    (connectionsManagerConstruct { apiOptions := none }
        (.obj [("baseUrl", .str "https://api.example.com")])).map
      (fun r => (r.2.resourceTemplate,
                 resolvePath r.2.resourceTemplate [],
                 endsWithSpace (resolvePath r.2.resourceTemplate []))) =
      .ok ("https://api.example.com/connections/:id ",
           "https://api.example.com/connections", false) := by
  rfl

/-- C10 (amended): the `ConnectionsManager` resource template
`baseUrl + '/connections/:id '` ends in a space for every base URL, and
every path resolved from it with an `id` parameter supplied ends in a
trailing space; when no `id` is supplied the placeholder segment —
including the trailing space — is removed, and the resolved collection
path does not end in a space. -/
theorem connections_trailing_space_amended : ∀ (b v : String),
    endsWithSpace (b ++ "/connections/:id ") = true ∧
    endsWithSpace (resolvePath (b ++ "/connections/:id ") [("id", v)]) = true ∧
    endsWithSpace (resolvePath (b ++ "/connections/:id ") []) = false ∧
    resolvePath ("https://api.example.com" ++ "/connections/:id ") [("id", v)] =
      "https://api.example.com/connections/" ++ (v ++ " ") ∧
    resolvePath ("https://api.example.com" ++ "/connections/:id ") [] =
      "https://api.example.com/connections" := by
  intro b v
  refine ⟨endsWithSpace_append b _ rfl, ?_, ?_, rfl, by decide⟩
  · rw [resolvePath_template_with_id, endsWithSpace]
    rw [show List.filterMap (resolveSegment [("id", v)]) (splitSegs b) ++
          ["connections", v ++ " "] =
        (List.filterMap (resolveSegment [("id", v)]) (splitSegs b) ++
          ["connections"]) ++ [v ++ " "] from by simp]
    rw [joinSegs_concat_getLast (v ++ " ") ' '
      (by rw [toList_append]; exact List.getLast?_concat _)]
    rfl
  · rw [resolvePath_template_no_id, endsWithSpace]
    rw [joinSegs_concat_getLast "connections" 's' rfl]
    rfl

end NodeAuth
